import Mathlib

/-!
Verification of the Collaborative-3D-loader backend (src/backend/src/main.rs).

Shallow embedding of:
* the standard base64 codec used for payloads
  (base64::engine::general_purpose::STANDARD, strict padding, no trailing bits);
* the data model (ModelRequest / ModelResponse / ModelData) and the SQLite-backed
  asset store (modelled as a list of records plus a fresh-id counter; the table has
  id INTEGER PRIMARY KEY, so ids are unique and assigned by the store);
* the Snapshot Differ loop spawned in main (lines 42-68): it polls load_all_models,
  keeps a HashSet<ModelResponse> of the last observed encoded records, and publishes
  the serialized full list through the broadcast channel when the set changed;
* the per-message dispatch of handle_connection (lines 96-186) on text messages:
  parse, then branch on the action string.

Bytes are Fin 256.  A Rust String of base64 text is modelled as List Char.
Broadcast messages are JSON strings in the code; a serialized single
ModelResponse (a JSON object) is never equal to a serialized list (a JSON
array), so broadcast payloads are modelled by the inductive BMsg keeping the
two shapes distinct.
-/

namespace Collab3D

/-- The standard base64 alphabet, index 0..63, as in RFC 4648 / the base64 crate. -/
def b64alphabet : List Char :=
  ['A','B','C','D','E','F','G','H','I','J','K','L','M','N','O','P','Q','R','S','T',
   'U','V','W','X','Y','Z','a','b','c','d','e','f','g','h','i','j','k','l','m','n',
   'o','p','q','r','s','t','u','v','w','x','y','z','0','1','2','3','4','5','6','7',
   '8','9','+','/']

/-- Character for a sextet value. -/
def b64char (v : Fin 64) : Char := b64alphabet.getD v.val 'A'

def b64valAux : List Char → Nat → Char → Option Nat
  | [], _, _ => none
  | a :: as, i, c => if a = c then some i else b64valAux as (i + 1) c

/-- Sextet value of a character; none for characters outside the alphabet
(in particular none for the padding character). -/
def b64val (c : Char) : Option (Fin 64) :=
  match b64valAux b64alphabet 0 c with
  | some i => if h : i < 64 then some ⟨i, h⟩ else none
  | none => none

/-- Standard base64 encoding with padding, as general_purpose::STANDARD.encode:
each group of three bytes becomes four alphabet characters; a final single
byte becomes two characters plus two pads; a final pair of bytes becomes
three characters plus one pad. -/
def b64encode : List (Fin 256) → List Char
  | [] => []
  | [b0] =>
      [b64char ⟨b0.val / 4, by have := b0.isLt; omega⟩,
       b64char ⟨b0.val % 4 * 16, by have := b0.isLt; omega⟩, '=', '=']
  | [b0, b1] =>
      [b64char ⟨b0.val / 4, by have := b0.isLt; omega⟩,
       b64char ⟨b0.val % 4 * 16 + b1.val / 16, by have := b0.isLt; have := b1.isLt; omega⟩,
       b64char ⟨b1.val % 16 * 4, by have := b1.isLt; omega⟩, '=']
  | b0 :: b1 :: b2 :: rest =>
      b64char ⟨b0.val / 4, by have := b0.isLt; omega⟩ ::
      b64char ⟨b0.val % 4 * 16 + b1.val / 16, by have := b0.isLt; have := b1.isLt; omega⟩ ::
      b64char ⟨b1.val % 16 * 4 + b2.val / 64, by have := b1.isLt; have := b2.isLt; omega⟩ ::
      b64char ⟨b2.val % 64, by have := b2.isLt; omega⟩ ::
      b64encode rest

def b64byte0 (v0 v1 : Fin 64) : Fin 256 :=
  ⟨v0.val * 4 + v1.val / 16, by have := v0.isLt; have := v1.isLt; omega⟩

def b64byte1 (v1 v2 : Fin 64) : Fin 256 :=
  ⟨v1.val % 16 * 16 + v2.val / 4, by have := v1.isLt; have := v2.isLt; omega⟩

def b64byte2 (v2 v3 : Fin 64) : Fin 256 :=
  ⟨v2.val % 4 * 64 + v3.val, by have := v2.isLt; have := v3.isLt; omega⟩

/-- Decoding of the final four-character quantum: canonical padding required,
trailing bits must be zero (general_purpose::STANDARD rejects both). -/
def b64decodeLast (c0 c1 c2 c3 : Char) : Option (List (Fin 256)) :=
  match b64val c0, b64val c1 with
  | some v0, some v1 =>
    if c2 = '=' then
      if c3 = '=' then
        if v1.val % 16 = 0 then some [b64byte0 v0 v1] else none
      else none
    else
      match b64val c2 with
      | some v2 =>
        if c3 = '=' then
          if v2.val % 4 = 0 then some [b64byte0 v0 v1, b64byte1 v1 v2] else none
        else
          match b64val c3 with
          | some v3 => some [b64byte0 v0 v1, b64byte1 v1 v2, b64byte2 v2 v3]
          | none => none
      | none => none
  | _, _ => none

/-- Standard strict base64 decoding, as general_purpose::STANDARD.decode:
the input length must be a multiple of four, padding may appear only in the
final quantum, non-alphabet characters are rejected. -/
def b64decode : List Char → Option (List (Fin 256))
  | [] => some []
  | c0 :: c1 :: c2 :: c3 :: rest =>
    if rest.isEmpty then b64decodeLast c0 c1 c2 c3
    else
      match b64val c0, b64val c1, b64val c2, b64val c3, b64decode rest with
      | some v0, some v1, some v2, some v3, some bs =>
          some (b64byte0 v0 v1 :: b64byte1 v1 v2 :: b64byte2 v2 v3 :: bs)
      | _, _, _, _, _ => none
  | _ => none

/-- Wire request shape (struct ModelRequest, main.rs lines 12-18). -/
structure ModelRequest where
  action : String
  id : Option Int
  name : Option String
  model_data : Option (List Char)
deriving DecidableEq

/-- Wire response shape for one record (struct ModelResponse, lines 20-25);
model_data is base64 text. -/
structure ModelResponse where
  id : Int
  name : Option String
  model_data : List Char
deriving DecidableEq

/-- In-store record shape (struct ModelData, lines 27-32); model_data is raw bytes. -/
structure ModelData where
  id : Int
  name : Option String
  model_data : List (Fin 256)
deriving DecidableEq

/-- The models table: id INTEGER PRIMARY KEY assigns fresh ids, so the store is a
record list together with the next fresh id. -/
structure Store where
  recs : List ModelData
  nextId : Int
deriving DecidableEq

/-- SELECT ... WHERE id = ?1 (load_model_by_id, lines 245-256): the single row
with the given id, none when absent (rusqlite QueryReturnedNoRows). -/
def load_model_by_id (s : Store) (i : Int) : Option ModelData :=
  s.recs.find? fun m => decide (m.id = i)

/-- SELECT id, Name, model_data FROM models (load_all_models, lines 258-273). -/
def load_all_models (s : Store) : List ModelData := s.recs

/-- INSERT INTO models (Name, model_data) VALUES (?1, ?2) followed by
last_insert_rowid (insert_model, lines 275-279): appends a record under a fresh
id and returns the new store and that id. -/
def insert_model (s : Store) (data : List (Fin 256)) (name : Option String) :
    Store × Int :=
  ({ recs := s.recs ++ [⟨s.nextId, name, data⟩], nextId := s.nextId + 1 }, s.nextId)

/-- Encoded form of a record, as built at lines 49-53, 103-107, 128-132. -/
def toResponse (m : ModelData) : ModelResponse :=
  { id := m.id, name := m.name, model_data := b64encode m.model_data }

/-- A message published through the broadcast channel: the insert handler sends
the serialization of one ModelResponse (a JSON object, line 159), the Differ
sends the serialization of the full current list (a JSON array, lines 56-57);
the two serializations are never equal, so the shapes are kept distinct.
The Differ list is built by iterating a HashSet, so its order is not
determined; the message is identified by the underlying set. -/
inductive BMsg
  | single (r : ModelResponse)
  | fullList (s : Finset ModelResponse)
deriving DecidableEq

/-- A response sent directly to the requesting client: one encoded record
(serde serialization of ModelResponse), the full list (get_all), or an
error object of shape with a single error string field (send_error,
lines 209-218). The error text is the format string used at the call site. -/
inductive OutMsg
  | record (r : ModelResponse)
  | list (rs : List ModelResponse)
  | err (msg : String)
deriving DecidableEq

/-- Effect of servicing one inbound text message: the store afterwards, the
responses written to this client, the messages published through the
broadcaster, and whether the handler loop continues (it breaks only on
transport write failures, which are outside this model). -/
structure StepResult where
  store : Store
  responses : List OutMsg
  broadcasts : List BMsg
  continues : Bool
deriving DecidableEq

/-- The text-message dispatch of handle_connection (lines 96-186).  The input
is the result of serde_json parsing: none models a parse failure, which is
logged and ignored (line 185).  Branching follows request.action (line 98):
get_by_id and insert proceed only when the optional field they need is present
(the if-let at lines 100 and 149 has no else branch); any other action is
logged and ignored (line 182). -/
def handle_text (s : Store) (parsed : Option ModelRequest) : StepResult :=
  match parsed with
  | none => ⟨s, [], [], true⟩
  | some req =>
    if req.action = "get_by_id" then
      match req.id with
      | some i =>
        match load_model_by_id s i with
        | some m => ⟨s, [.record (toResponse m)], [], true⟩
        | none => ⟨s, [.err "Model not found"], [], true⟩
      | none => ⟨s, [], [], true⟩
    else if req.action = "get_all" then
      ⟨s, [.list ((load_all_models s).map toResponse)], [], true⟩
    else if req.action = "insert" then
      match req.model_data with
      | some b64 =>
        match b64decode b64 with
        | some bytes =>
          let res := insert_model s bytes req.name
          let nm : ModelResponse := ⟨res.2, req.name, b64⟩
          ⟨res.1, [.record nm], [.single nm], true⟩
        | none => ⟨s, [.err "Invalid base64 data"], [], true⟩
      | none => ⟨s, [], [], true⟩
    else ⟨s, [], [], true⟩

/-- The snapshot a store read yields: the set of encoded records
(HashSet<ModelResponse>, lines 47-54). -/
def toSnapshot (models : List ModelData) : Finset ModelResponse :=
  (models.map toResponse).toFinset

/-- One tick of the Differ task (lines 44-67).  The read either fails
(rusqlite error: logged, tick skipped) or yields the record list; on success
the encoded set is compared with the last observed set and, when different,
the full list is published and becomes the new observed set. -/
def differStep (last : Finset ModelResponse)
    (read : Except String (List ModelData)) :
    Finset ModelResponse × Option BMsg :=
  match read with
  | .error _ => (last, none)
  | .ok models =>
    let current := toSnapshot models
    if current ≠ last then (current, some (.fullList current)) else (last, none)

/-- The Differ loop over a sequence of tick read results: final observed set
and the published messages in order. -/
def runDiffer (last : Finset ModelResponse) :
    List (Except String (List ModelData)) → Finset ModelResponse × List BMsg
  | [] => (last, [])
  | r :: rs =>
    let step := differStep last r
    let rest := runDiffer step.1 rs
    (rest.1, step.2.toList ++ rest.2)

/-! Facts about the base64 alphabet. -/

theorem b64val_b64char : ∀ v : Fin 64, b64val (b64char v) = some v := by decide

theorem b64char_ne_pad : ∀ v : Fin 64, b64char v ≠ '=' := by decide

theorem b64encode_cons_ne_nil (b : Fin 256) (l : List (Fin 256)) :
    b64encode (b :: l) ≠ [] := by
  match l with
  | [] => simp [b64encode]
  | [b1] => simp [b64encode]
  | b1 :: b2 :: rest => simp [b64encode]

/-- Round trip of the payload codec: strict standard decoding inverts encoding
on every byte sequence. -/
theorem b64_decode_encode : ∀ l : List (Fin 256), b64decode (b64encode l) = some l
  | [] => by simp [b64encode, b64decode]
  | [b0] => by
    have h0 := b0.isLt
    simp only [b64encode, b64decode, List.isEmpty_nil, if_true, b64decodeLast,
      b64val_b64char, Nat.mul_mod_left, if_pos rfl, b64byte0]
    simp only [Option.some.injEq, List.cons.injEq, and_true, Fin.ext_iff]
    omega
  | [b0, b1] => by
    have h0 := b0.isLt
    have h1 := b1.isLt
    simp only [b64encode, b64decode, List.isEmpty_nil, if_true, b64decodeLast,
      b64val_b64char, b64char_ne_pad, if_false, Nat.mul_mod_left, if_pos rfl,
      b64byte0, b64byte1]
    simp only [Option.some.injEq, List.cons.injEq, and_true, Fin.ext_iff]
    omega
  | b0 :: b1 :: b2 :: rest => by
    have h0 := b0.isLt
    have h1 := b1.isLt
    have h2 := b2.isLt
    match rest with
    | [] =>
      simp only [b64encode, b64decode, List.isEmpty_nil, if_true, b64decodeLast,
        b64val_b64char, b64char_ne_pad, if_false, b64byte0, b64byte1, b64byte2]
      simp only [Option.some.injEq, List.cons.injEq, and_true, Fin.ext_iff]
      omega
    | r :: rs =>
      have ih : b64decode (b64encode (r :: rs)) = some (r :: rs) :=
        b64_decode_encode (r :: rs)
      have hne : (b64encode (r :: rs)).isEmpty = false := by
        cases hE : b64encode (r :: rs) with
        | nil => exact absurd hE (b64encode_cons_ne_nil r rs)
        | cons a as => rfl
      simp only [b64encode, b64decode, hne, if_false, b64val_b64char, ih,
        b64byte0, b64byte1, b64byte2]
      simp only [Bool.false_eq_true, if_false, Option.some.injEq, List.cons.injEq,
        and_true, Fin.ext_iff]
      omega

theorem b64encode_inj {a b : List (Fin 256)} (h : b64encode a = b64encode b) :
    a = b := by
  have ha := b64_decode_encode a
  rw [h, b64_decode_encode b] at ha
  exact (Option.some_inj.mp ha).symm

theorem toResponse_inj {x y : ModelData} (h : toResponse x = toResponse y) :
    x = y := by
  cases x; cases y
  simp only [toResponse, ModelResponse.mk.injEq, ModelData.mk.injEq] at h ⊢
  exact ⟨h.1, h.2.1, b64encode_inj h.2.2⟩

theorem differ_publish_full_list (last : Finset ModelResponse)
    (read : Except String (List ModelData)) (p : BMsg)
    (hp : (differStep last read).2 = some p) :
    p = .fullList (differStep last read).1 := by
  cases read with
  | error e => simp [differStep] at hp
  | ok models =>
    unfold differStep at hp ⊢
    by_cases h : toSnapshot models ≠ last
    · simp only [if_pos h] at hp ⊢
      simp only [Option.some.injEq] at hp
      exact hp.symm
    · simp [if_neg h] at hp

/-- C2: decoding the standard-base64 encoding of any byte sequence, including
the empty one, yields exactly that sequence. -/
theorem c2_payload_roundtrip (b : List (Fin 256)) :
    b64decode (b64encode b) = some b := b64_decode_encode b

/-- C1 as stated is false: a successful insert does publish a single-record
message through the broadcaster (main.rs lines 159-162).  On an empty store,
an insert request with payload base64 of the byte 0 makes the handler publish
exactly one message, and that message is the serialized single new record,
not a full-list serialization. -/
theorem c1_counterexample :
    (handle_text ⟨[], 1⟩ (some ⟨"insert", none, none, some ['A','A','=','=']⟩)).broadcasts
      = [BMsg.single ⟨1, none, ['A','A','=','=']⟩] := by decide

/-- C1 amended: messages the Differ publishes are always serializations of the
full current asset list (the new observed snapshot), but the insert handler
additionally eagerly publishes exactly one single-record broadcaster message
carrying the new record; the direct response to the inserter carries that same
record. -/
theorem c1_broadcast_shapes (last : Finset ModelResponse)
    (read : Except String (List ModelData))
    (s : Store) (req : ModelRequest) (b64 : List Char) (bytes : List (Fin 256))
    (ha : req.action = "insert") (hm : req.model_data = some b64)
    (hd : b64decode b64 = some bytes) :
    (∀ p, (differStep last read).2 = some p →
        p = BMsg.fullList (differStep last read).1)
    ∧ (handle_text s (some req)).broadcasts
        = [BMsg.single ⟨(insert_model s bytes req.name).2, req.name, b64⟩]
    ∧ (handle_text s (some req)).responses
        = [OutMsg.record ⟨(insert_model s bytes req.name).2, req.name, b64⟩] := by
  refine ⟨fun p hp => differ_publish_full_list last read p hp, ?_, ?_⟩ <;>
    simp [handle_text, ha, hm, hd]

theorem c1_witness :
    (handle_text ⟨[], 1⟩ (some ⟨"insert", none, some "car", some ['A','A','=','=']⟩)).broadcasts
      = [BMsg.single ⟨1, some "car", ['A','A','=','=']⟩] :=
  (c1_broadcast_shapes ∅ (.ok []) ⟨[], 1⟩
    ⟨"insert", none, some "car", some ['A','A','=','=']⟩
    ['A','A','=','='] [0] rfl rfl (by decide)).2.1

/-- C3: on a tick whose store read succeeds, a message is published through the
broadcaster iff the freshly read encoded set differs from the observed
snapshot; when identical, nothing is published and the snapshot is unchanged;
when different, the snapshot is replaced by the new set and exactly one
message is published. -/
theorem c3_differ_tick (last : Finset ModelResponse) (models : List ModelData) :
    (toSnapshot models = last → differStep last (.ok models) = (last, none))
    ∧ (toSnapshot models ≠ last →
        differStep last (.ok models)
          = (toSnapshot models, some (.fullList (toSnapshot models))))
    ∧ ((differStep last (.ok models)).2 ≠ none ↔ toSnapshot models ≠ last) := by
  unfold differStep
  by_cases h : toSnapshot models = last <;> simp [h]

theorem c3_witness :
    differStep ∅ (.ok ([] : List ModelData)) = (∅, none)
    ∧ differStep ∅ (.ok [⟨1, none, [0]⟩])
        = (toSnapshot [⟨1, none, [0]⟩],
           some (.fullList (toSnapshot [⟨1, none, [0]⟩]))) :=
  ⟨(c3_differ_tick ∅ []).1 (by decide),
   (c3_differ_tick ∅ [⟨1, none, [0]⟩]).2.1 (by decide)⟩

/-- C4: a failed store read skips the tick: the observed snapshot keeps its
last-known-good value, nothing is published, and the loop goes on to the
following ticks exactly as if the failed tick had not occurred. -/
theorem c4_differ_read_failure (last : Finset ModelResponse) (e : String)
    (rest : List (Except String (List ModelData))) :
    differStep last (.error e) = (last, none)
    ∧ runDiffer last (.error e :: rest) = runDiffer last rest := by
  refine ⟨rfl, ?_⟩
  simp [runDiffer, differStep]

/-- C5: snapshot comparison is order-independent full structural equality:
after observing a read, any permutation of the same records produces no
publish; and editing the name or payload of one record of an existing id
(ids being unique, as the primary key guarantees) is detected and produces a
publish of the new set. -/
theorem c5_set_equality_detection
    (l1 l2 pre post : List ModelData) (m m' : ModelData)
    (hperm : l1.Perm l2)
    (hid : m'.id = m.id) (hne : m' ≠ m)
    (hnodup : ((pre ++ m :: post).map ModelData.id).Nodup) :
    differStep (toSnapshot l1) (.ok l2) = (toSnapshot l1, none)
    ∧ (differStep (toSnapshot (pre ++ m :: post)) (.ok (pre ++ m' :: post))).2
        = some (.fullList (toSnapshot (pre ++ m' :: post))) := by
  constructor
  · have hs : toSnapshot l2 = toSnapshot l1 :=
      List.toFinset_eq_of_perm _ _ ((hperm.map toResponse).symm)
    unfold differStep
    simp [hs]
  · have hdiff : toSnapshot (pre ++ m' :: post) ≠ toSnapshot (pre ++ m :: post) := by
      intro heq
      have hm' : toResponse m' ∈ toSnapshot (pre ++ m' :: post) := by
        unfold toSnapshot
        rw [List.mem_toFinset, List.mem_map]
        exact ⟨m', by simp, rfl⟩
      rw [heq] at hm'
      unfold toSnapshot at hm'
      rw [List.mem_toFinset, List.mem_map] at hm'
      obtain ⟨x, hx, hxe⟩ := hm'
      have hxm : x = m' := toResponse_inj hxe
      subst hxm
      have hmem_m : m ∈ pre ++ m :: post := by simp
      exact hne (List.inj_on_of_nodup_map hnodup hx hmem_m hid)
    unfold differStep
    simp [hdiff]

theorem c5_witness :
    differStep (toSnapshot ([] : List ModelData)) (.ok []) = (toSnapshot [], none)
    ∧ (differStep (toSnapshot [⟨1, none, [0]⟩]) (.ok [⟨1, none, [1]⟩])).2
        = some (.fullList (toSnapshot [⟨1, none, [1]⟩])) :=
  c5_set_equality_detection [] [] [] [] ⟨1, none, [0]⟩ ⟨1, none, [1]⟩
    (List.Perm.refl _) rfl (by decide) (by decide)

/-- C6: an insert whose payload field is present but not valid base64 yields
exactly one error response naming the decode failure; the store is unchanged,
nothing is broadcast, and the handler loop continues. -/
theorem c6_insert_bad_base64 (s : Store) (req : ModelRequest) (b64 : List Char)
    (ha : req.action = "insert") (hm : req.model_data = some b64)
    (hd : b64decode b64 = none) :
    handle_text s (some req) = ⟨s, [.err "Invalid base64 data"], [], true⟩ := by
  simp [handle_text, ha, hm, hd]

theorem c6_witness :
    handle_text ⟨[], 1⟩ (some ⟨"insert", none, none, some ['!','!','!','!']⟩)
      = ⟨⟨[], 1⟩, [.err "Invalid base64 data"], [], true⟩ :=
  c6_insert_bad_base64 ⟨[], 1⟩ ⟨"insert", none, none, some ['!','!','!','!']⟩
    ['!','!','!','!'] rfl rfl (by decide)

/-- C7: a get_by_id carrying an id absent from the store yields exactly one
error response (the send_error object with a single error string field): no
crash — the handler is a total function — and no success response, empty or
otherwise; store and connection are untouched. -/
theorem c7_get_by_id_absent (s : Store) (req : ModelRequest) (i : Int)
    (ha : req.action = "get_by_id") (hi : req.id = some i)
    (habs : ∀ m ∈ s.recs, m.id ≠ i) :
    handle_text s (some req) = ⟨s, [.err "Model not found"], [], true⟩ := by
  have hload : load_model_by_id s i = none := by
    unfold load_model_by_id
    simp only [List.find?_eq_none, decide_eq_true_eq]
    exact habs
  simp [handle_text, ha, hi, hload]

theorem c7_witness :
    handle_text ⟨[⟨1, some "tree", [0]⟩], 2⟩ (some ⟨"get_by_id", some 5, none, none⟩)
      = ⟨⟨[⟨1, some "tree", [0]⟩], 2⟩, [.err "Model not found"], [], true⟩ :=
  c7_get_by_id_absent ⟨[⟨1, some "tree", [0]⟩], 2⟩
    ⟨"get_by_id", some 5, none, none⟩ 5 rfl rfl (by decide)

/-- C8 as stated is false: a get_by_id request with no id field gets no
response at all — the if-let at main.rs line 100 has no else branch — rather
than the error response the claim requires. -/
theorem c8_counterexample :
    handle_text ⟨[], 1⟩ (some ⟨"get_by_id", none, none, none⟩)
      = ⟨⟨[], 1⟩, [], [], true⟩ := by decide

/-- C8 amended: a request that parses but is missing the field its action
requires (get_by_id without id, insert without payload) is silently ignored:
no response of any kind is sent, the store is not mutated, nothing is
broadcast, and the connection stays open. -/
theorem c8_missing_field_ignored (s : Store) (req : ModelRequest)
    (h : (req.action = "get_by_id" ∧ req.id = none)
       ∨ (req.action = "insert" ∧ req.model_data = none)) :
    handle_text s (some req) = ⟨s, [], [], true⟩ := by
  rcases h with ⟨ha, hi⟩ | ⟨ha, hm⟩
  · simp [handle_text, ha, hi]
  · simp [handle_text, ha, hm]

theorem c8_witness :
    handle_text ⟨[], 1⟩ (some ⟨"insert", none, some "car", none⟩)
      = ⟨⟨[], 1⟩, [], [], true⟩ :=
  c8_missing_field_ignored ⟨[], 1⟩ ⟨"insert", none, some "car", none⟩
    (Or.inr ⟨rfl, rfl⟩)

/-- C9: a text message that fails to decode as a request, and a decoded
request whose action is none of get_by_id, get_all, insert, are both only
logged: no response is sent, the store is not mutated, nothing is broadcast,
and the handler loop continues. -/
theorem c9_malformed_and_unknown_ignored (s : Store) (req : ModelRequest)
    (ha : req.action ≠ "get_by_id" ∧ req.action ≠ "get_all" ∧ req.action ≠ "insert") :
    handle_text s none = ⟨s, [], [], true⟩
    ∧ handle_text s (some req) = ⟨s, [], [], true⟩ := by
  refine ⟨rfl, ?_⟩
  simp [handle_text, ha.1, ha.2.1, ha.2.2]

theorem c9_witness :
    handle_text ⟨[], 1⟩ none = ⟨⟨[], 1⟩, [], [], true⟩
    ∧ handle_text ⟨[], 1⟩ (some ⟨"frobnicate", none, none, none⟩)
        = ⟨⟨[], 1⟩, [], [], true⟩ :=
  c9_malformed_and_unknown_ignored ⟨[], 1⟩ ⟨"frobnicate", none, none, none⟩
    ⟨by decide, by decide, by decide⟩

/-- C10: a request whose action is delete falls into the unrecognized-action
branch: the store is returned unchanged — every id still looks up to exactly
what it looked up to before — no response is sent, nothing is broadcast, and
the connection stays open. -/
theorem c10_delete_is_unrecognized (s : Store) (req : ModelRequest)
    (ha : req.action = "delete") :
    handle_text s (some req) = ⟨s, [], [], true⟩
    ∧ ∀ i, load_model_by_id (handle_text s (some req)).store i
        = load_model_by_id s i := by
  have h : handle_text s (some req) = ⟨s, [], [], true⟩ := by
    simp [handle_text, ha]
  exact ⟨h, fun i => by rw [h]⟩

theorem c10_witness :
    handle_text ⟨[⟨1, none, [0]⟩], 2⟩ (some ⟨"delete", some 1, none, none⟩)
      = ⟨⟨[⟨1, none, [0]⟩], 2⟩, [], [], true⟩ :=
  (c10_delete_is_unrecognized ⟨[⟨1, none, [0]⟩], 2⟩
    ⟨"delete", some 1, none, none⟩ rfl).1

end Collab3D
